import Mathlib

/-
Verification development for the APIFuzz repository.

The definitions below are a shallow embedding of the Python source:
  - `core/base.py`    : BaseFuzzer (shared test-value table, run_threads, worker loop glue)
  - `core/openapi3.py`: OpenAPI3Fuzzer (extract_endpoints, prepare_request, generate_test_value,
                        resolve_schema_ref, mock_schema, worker)
  - `core/swagger2.py`: Swagger2Fuzzer (same operations, Swagger 2.0 rules)
  - `core/wsdl.py`    : WSDLFuzzer (worker signature, prepare_request attribute access)

JSON-like runtime values are modelled by `JVal`; Python floats are carried as their
decimal literal text (no claim depends on float arithmetic).  Schema dictionaries are
modelled by `Schema`, keeping exactly the keys the source reads: `$ref`, `type`,
`format`, `enum`, `items`, `properties`.  `Option` distinguishes an absent key from a
present one; an absent-or-empty dict that Python treats as falsy is noted at each use.
Python's `random.choice` is modelled by threading an arbitrary natural `rnd` and
indexing with `rnd % length`.
-/

/-- JSON-like value tree produced by the schema walker and the value generator. -/
inductive JVal where
  | null
  | bool (b : Bool)
  | int (n : Int)
  | flt (lit : String)
  | str (s : String)
  | bytes (tag : String)
  | arr (xs : List JVal)
  | obj (kvs : List (String × JVal))

/- Schema dictionaries as read by `mock_schema` / `generate_test_value`:
only the keys the Python code accesses are kept.  `Props` is the
`properties` sub-dictionary (an ordered name-to-schema table). -/
mutual
inductive Schema where
  | mk (ref : Option String) (ty : Option String) (fmt : Option String)
      (enum : Option (List JVal)) (items : Option Schema) (properties : Option Props)
inductive Props where
  | nil
  | cons (name : String) (s : Schema) (rest : Props)
end

def Schema.ref : Schema → Option String
  | .mk r _ _ _ _ _ => r

def Schema.ty : Schema → Option String
  | .mk _ t _ _ _ _ => t

def Schema.fmt : Schema → Option String
  | .mk _ _ f _ _ _ => f

def Schema.enum : Schema → Option (List JVal)
  | .mk _ _ _ e _ _ => e

def Schema.items : Schema → Option Schema
  | .mk _ _ _ _ i _ => i

def Schema.properties : Schema → Option Props
  | .mk _ _ _ _ _ p => p

/-- The empty Python dict `{}` used as a fallback schema. -/
def Schema.empty : Schema := .mk none none none none none none

/-- A plain `{"$ref": r}` schema. -/
def Schema.ofRef (r : String) : Schema := .mk (some r) none none none none none

/-- A plain `{"type": t}` schema. -/
def Schema.ofType (t : String) : Schema := .mk none (some t) none none none none

/-- First match in an association list; Python `dict.get` over a dict with unique keys. -/
def alookup {α : Type} (key : String) : List (String × α) → Option α
  | [] => none
  | (k, v) :: rest => if k = key then some v else alookup key rest

/- ===== Python string primitives, modelled over the character list ===== -/

/-- Python prefix test (`s.startswith(p)`), over character lists so that
concrete instances evaluate. -/
def listPrefixEq : List Char → List Char → Bool
  | [], _ => true
  | _ :: _, [] => false
  | p :: ps, x :: xs => p == x && listPrefixEq ps xs

/-- Python `s.startswith(p)`. -/
def pyStartsWith (s p : String) : Bool := listPrefixEq p.data s.data

/-- Python `s.upper()`. -/
def pyUpper (s : String) : String := ⟨s.data.map Char.toUpper⟩

/-- Helper for `pyRemoveAll`: remove every occurrence of `pat`, scanning
left to right; the `Nat` is length fuel (instantiated to the full length,
so the fuel-out branch is unreachable). -/
def removeAllAux (pat : List Char) : Nat → List Char → List Char
  | _, [] => []
  | 0, xs => xs
  | f + 1, x :: xs =>
    if listPrefixEq pat (x :: xs) then removeAllAux pat f (List.drop (pat.length - 1) xs)
    else x :: removeAllAux pat f xs

/-- Python `s.replace(pat, "")`: every occurrence of `pat` removed. -/
def pyRemoveAll (s pat : String) : String :=
  ⟨removeAllAux pat.data s.data.length s.data⟩

/-- Helper for `pySplitChar`: split a character list at a separator. -/
def splitCharAux (sep : Char) : List Char → List (List Char)
  | [] => [[]]
  | c :: cs =>
    if c == sep then [] :: splitCharAux sep cs
    else
      match splitCharAux sep cs with
      | h :: t => (c :: h) :: t
      | [] => [[c]]

/-- Python `s.split(sep)` for a one-character separator. -/
def pySplitChar (s : String) (sep : Char) : List String :=
  (splitCharAux sep s.data).map fun cs => ⟨cs⟩

/- ===== base.py: shared test-value table (BaseFuzzer.__init__, lines 39-70) ===== -/

/-- `BaseFuzzer.test_values` (`core/base.py`), used by the OpenAPI3 fuzzer.
`none` models a key miss of `dict.get`. -/
def testValuesO3 (key : String) : Option JVal :=
  match key with
  | "string" => some (.str "test")
  | "integer" => some (.int 1)
  | "number" => some (.flt "1.23")
  | "boolean" => some (.bool true)
  | "array" => some (.arr [.str "item"])
  | "object" => some (.obj [("key", .str "value")])
  | "date" => some (.str "2023-01-01")
  | "date-time" => some (.str "2023-01-01T00:00:00Z")
  | "uuid" => some (.str "123e4567-e89b-12d3-a456-426614174000")
  | "email" => some (.str "test@example.com")
  | "password" => some (.str "test_password")
  | "uri" => some (.str "https://example.com")
  | "file" => some (.str "test_file.txt")
  | "int32" => some (.int 123)
  | "int64" => some (.int 123456789)
  | "long" => some (.int 123456789)
  | "double" => some (.flt "123.45")
  | "float" => some (.flt "123.45")
  | "ipv4" => some (.str "192.168.1.1")
  | "ipv6" => some (.str "2001:db8::1")
  | "byte" => some (.str "dGVzdA==")
  | "binary" => some (.bytes "test_binary_data")
  | "octet-stream" => some (.bytes "test_octet_stream")
  | "pdf" => some (.bytes "%PDF-1.4\nFake PDF\n%%EOF")
  | "zip" => some (.bytes "PK\x03\x04\x14\x00\x00\x00\x08\x00")
  | "plain-text" => some (.str "test plain text content")
  | "xml" => some (.str "<test>content</test>")
  | _ => none

/-- `Swagger2Fuzzer.test_values` (`core/swagger2.py`, lines 35-56). -/
def testValuesS2 (key : String) : Option JVal :=
  match key with
  | "string" => some (.str "test_string")
  | "integer" => some (.int 123)
  | "int32" => some (.int 123)
  | "int64" => some (.int 123456789)
  | "long" => some (.int 123456789)
  | "number" => some (.flt "123.45")
  | "double" => some (.flt "123.45")
  | "float" => some (.flt "123.45")
  | "boolean" => some (.bool true)
  | "array" => some (.arr [.str "item1", .str "item2"])
  | "object" => some (.obj [("key", .str "value")])
  | "file" => some (.str "test_file.txt")
  | "date" => some (.str "2023-01-01")
  | "date-time" => some (.str "2023-01-01T12:00:00Z")
  | "email" => some (.str "test@example.com")
  | "password" => some (.str "test_password")
  | "uuid" => some (.str "123e4567-e89b-12d3-a456-426614174000")
  | "uri" => some (.str "https://example.com")
  | "ipv4" => some (.str "192.168.1.1")
  | "ipv6" => some (.str "2001:db8::1")
  | _ => none

/- ===== generate_test_value (openapi3.py lines 393-461, swagger2.py lines 130-203) ===== -/

/-- `random.choice(enum)`: pick the `rnd % len`-th member of a non-empty list. -/
def pyChoice (rnd : Nat) (es : List JVal) : JVal :=
  es.getD (rnd % es.length) .null

/-- The `(type, format)` dispatch of `OpenAPI3Fuzzer.generate_test_value`
(`core/openapi3.py`, lines 393-461) for `items=None`, which is the shape of
the recursive self-call the Python code makes for array items.  The `array`
branch with `items=None` returns the table value directly. -/
def genTestValueLeafO3 (rnd : Nat) (ty : String) (fmt : Option String)
    (enum : Option (List JVal)) : JVal :=
  match enum with
  | some (e :: es) => pyChoice rnd (e :: es)
  | _ =>
    if ty = "array" then (testValuesO3 "array").getD .null
    else if ty = "file" then (testValuesO3 "file").getD .null
    else if ty = "integer" ∨ ty = "int" then
      if fmt = some "int32" then (testValuesO3 "int32").getD .null
      else if fmt = some "int64" then (testValuesO3 "int64").getD .null
      else (testValuesO3 "integer").getD .null
    else if ty = "number" then
      if fmt = some "double" then (testValuesO3 "double").getD .null
      else if fmt = some "float" then (testValuesO3 "float").getD .null
      else (testValuesO3 "number").getD .null
    else if ty = "string" then
      if fmt = some "date" then (testValuesO3 "date").getD .null
      else if fmt = some "date-time" then (testValuesO3 "date-time").getD .null
      else if fmt = some "uuid" then (testValuesO3 "uuid").getD .null
      else if fmt = some "email" then (testValuesO3 "email").getD .null
      else if fmt = some "uri" then (testValuesO3 "uri").getD .null
      else if fmt = some "url" then (testValuesO3 "uri").getD .null
      else if fmt = some "password" then (testValuesO3 "password").getD .null
      else if fmt = some "byte" then (testValuesO3 "byte").getD .null
      else if fmt = some "binary" then (testValuesO3 "binary").getD .null
      else if fmt = some "int32" then .str "123"
      else if fmt = some "int64" then .str "123456789"
      else if fmt = some "double" then .str "123.45"
      else (testValuesO3 "string").getD .null
    else if ty = "boolean" then (testValuesO3 "boolean").getD .null
    else if ty = "object" then (testValuesO3 "object").getD .null
    else (testValuesO3 ty).getD (.str "test")

/-- `OpenAPI3Fuzzer.generate_test_value` (`core/openapi3.py`, lines 393-461).
A present `items` dict is modelled by `some` (Python truthiness of the dict);
the one-level recursion on the item type is `genTestValueLeafO3`, the same
dispatch with `items=None`.  When `items` is present but the type is not
`array`, `items` is ignored, exactly as in the source. -/
def genTestValueO3 (rnd : Nat) (ty : String) (fmt : Option String)
    (items : Option Schema) (enum : Option (List JVal)) : JVal :=
  match enum with
  | some (e :: es) => pyChoice rnd (e :: es)
  | _ =>
    match items with
    | some it =>
      if ty = "array" then
        .arr [genTestValueLeafO3 rnd (it.ty.getD "string") it.fmt it.enum]
      else genTestValueLeafO3 rnd ty fmt enum
    | none => genTestValueLeafO3 rnd ty fmt enum

/-- The `(type, format)` dispatch of `Swagger2Fuzzer.generate_test_value`
(`core/swagger2.py`, lines 130-203) for `items=None`. -/
def genTestValueLeafS2 (rnd : Nat) (ty : String) (fmt : Option String)
    (enum : Option (List JVal)) : JVal :=
  match enum with
  | some (e :: es) => pyChoice rnd (e :: es)
  | _ =>
    if ty = "array" then (testValuesS2 "array").getD .null
    else if ty = "file" then (testValuesS2 "file").getD .null
    else if ty = "integer" ∨ ty = "int" then
      if fmt = some "int32" then (testValuesS2 "int32").getD .null
      else if fmt = some "int64" then (testValuesS2 "int64").getD .null
      else (testValuesS2 "integer").getD .null
    else if ty = "long" then (testValuesS2 "long").getD .null
    else if ty = "number" then
      if fmt = some "double" then (testValuesS2 "double").getD .null
      else if fmt = some "float" then (testValuesS2 "float").getD .null
      else (testValuesS2 "number").getD .null
    else if ty = "string" then
      if fmt = some "date" then (testValuesS2 "date").getD .null
      else if fmt = some "date-time" then (testValuesS2 "date-time").getD .null
      else if fmt = some "email" then (testValuesS2 "email").getD .null
      else if fmt = some "password" then (testValuesS2 "password").getD .null
      else if fmt = some "uuid" then (testValuesS2 "uuid").getD .null
      else if fmt = some "uri" then (testValuesS2 "uri").getD .null
      else if fmt = some "ipv4" then (testValuesS2 "ipv4").getD .null
      else if fmt = some "ipv6" then (testValuesS2 "ipv6").getD .null
      else (testValuesS2 "string").getD .null
    else if ty = "boolean" then (testValuesS2 "boolean").getD .null
    else if ty = "object" then (testValuesS2 "object").getD .null
    else (testValuesS2 "string").getD .null

/-- `Swagger2Fuzzer.generate_test_value` (`core/swagger2.py`, lines 130-203),
structured like `genTestValueO3`. -/
def genTestValueS2 (rnd : Nat) (ty : String) (fmt : Option String)
    (items : Option Schema) (enum : Option (List JVal)) : JVal :=
  match enum with
  | some (e :: es) => pyChoice rnd (e :: es)
  | _ =>
    match items with
    | some it =>
      if ty = "array" then
        .arr [genTestValueLeafS2 rnd (it.ty.getD "string") it.fmt it.enum]
      else genTestValueLeafS2 rnd ty fmt enum
    | none => genTestValueLeafS2 rnd ty fmt enum

/- ===== extract_endpoints (openapi3.py lines 130-153, swagger2.py lines 249-259) ===== -/

/-- `OpenAPI3Fuzzer.supported_methods` (`core/openapi3.py`, line 32); the
Swagger2 extractor inlines the same seven-verb list (`core/swagger2.py` line 255). -/
def supportedMethods : List String :=
  ["GET", "POST", "PUT", "DELETE", "PATCH", "HEAD", "OPTIONS"]

/-- `extract_endpoints` shared shape (`core/openapi3.py` lines 136-150,
`core/swagger2.py` lines 253-256): iterate the path-to-method table, keep an
operation iff its upper-cased verb is supported, and record
`(method.upper(), path, details)`.  The OpenAPI3 variant repackages `details`
into an `endpoint_info` dict of the same operation (count- and verb-preserving),
so one definition covers both dialects. -/
def extractEndpoints {α : Type} (paths : List (String × List (String × α))) :
    List (String × String × α) :=
  paths.foldl
    (fun acc pm =>
      pm.2.foldl
        (fun acc2 md =>
          if pyUpper md.1 ∈ supportedMethods then acc2 ++ [(pyUpper md.1, pm.1, md.2)]
          else acc2)
        acc)
    []

/-- Number of operations declared in a path-to-method table. -/
def totalOps {α : Type} (paths : List (String × List (String × α))) : Nat :=
  (paths.map (fun pm => pm.2.length)).sum

/- ===== worker result classification (openapi3.py lines 81-92, swagger2.py lines 99-110) ===== -/

/-- Substring containment, modelling Python `needle in haystack` on the
response byte-string (carried here as text). -/
def strContainsSub (hay needle : String) : Bool :=
  (List.range (hay.toList.length + 1)).any
    (fun i => (hay.toList.drop i).take needle.toList.length == needle.toList)

/-- Status classification in the worker (`core/openapi3.py` lines 83-86,
`core/swagger2.py` lines 101-104): `status = str(resp.status_code)`, then a
`200` response whose body contains `b"Burp Suite"` is reclassified to
`"error"`. -/
def classifyStatus (statusCode : Nat) (content : String) : String :=
  let status := toString statusCode
  if status = "200" ∧ strContainsSub content "Burp Suite" then "error" else status

/- ===== worker loop (openapi3.py lines 73-110, swagger2.py lines 91-128) ===== -/

/-- Response data the worker reads from a completed HTTP exchange. -/
structure ProbeResp where
  statusCode : Nat
  contentType : String
  content : String

/-- The request fields threaded from `prepare_request` into the result row. -/
structure ProbeReq where
  method : String
  url : String

/-- Outcome of `prepare_request` for one dequeued endpoint: the built request,
or the exception it raised. -/
inductive BuildOutcome where
  | ok (req : ProbeReq)
  | exn (msg : String)

/-- Outcome of `send_request` for one built request: the response, or the
exception it raised (timeout, connection failure, ...). -/
inductive SendOutcome where
  | ok (resp : ProbeResp)
  | exn (msg : String)

/-- One queued endpoint together with the outcome each phase would have for
it; the oracle form lets the loop be analyzed for every failure pattern. -/
structure FuzzTask where
  build : BuildOutcome
  send : SendOutcome

/-- One row appended to `self.results` (`core/openapi3.py` lines 88-92,
`core/swagger2.py` lines 106-110); the audit fields (serialized headers,
body copy, response snippet) are elided as no claim reads them. -/
structure WorkerRecord where
  method : String
  url : String
  status : String
  contentLength : Nat
  contentType : String

/-- Build the result row for a successful exchange, applying the worker's
status classification (`Burp Suite` reclassification included). -/
def mkRecord (req : ProbeReq) (resp : ProbeResp) : WorkerRecord :=
  { method := req.method
    url := req.url
    status := classifyStatus resp.statusCode resp.content
    contentLength := resp.content.length
    contentType := resp.contentType }

/-- Terminal state of one worker thread: the result rows it appended, the
tasks left on the queue when it stopped, and whether it exited its loop
normally (`true`) or died by an uncaught exception (`false`). -/
structure WorkerExit where
  results : List WorkerRecord
  remaining : List FuzzTask
  normalExit : Bool

/-- The REST worker loop (`core/openapi3.py` lines 73-110, identically
`core/swagger2.py` lines 91-128), single-worker sequential semantics:

    while not queue.empty():
        try:
            task = queue.get()
            req = prepare_request(task)        -- uncaught on raise
            try:
                resp = send_request(req)
                results.append(record(resp))   -- only on success
            except Exception:
                print(error)                   -- caught: console line only
        finally:
            queue.task_done()

A `send` exception is caught inside the inner `try` and produces no result
row; a `build` (`prepare_request`) exception is not caught by anything, so it
propagates out of the `while` and terminates the thread with the rest of the
queue undequeued. -/
def workerRun : List FuzzTask → List WorkerRecord → WorkerExit
  | [], res => ⟨res, [], true⟩
  | t :: ts, res =>
    match t.build with
    | .exn _ => ⟨res, ts, false⟩
    | .ok req =>
      match t.send with
      | .exn _ => workerRun ts res
      | .ok resp => workerRun ts (res ++ [mkRecord req resp])

/-- Predicate: a task's send phase succeeds. -/
def FuzzTask.sendOk (t : FuzzTask) : Bool :=
  match t.send with
  | .ok _ => true
  | .exn _ => false

/-- Predicate: a task's build phase succeeds. -/
def FuzzTask.buildOk (t : FuzzTask) : Bool :=
  match t.build with
  | .ok _ => true
  | .exn _ => false

/- ===== WSDL worker invocation and attribute model (wsdl.py, base.py) ===== -/

/-- Positional parameters beyond `self` of `WSDLFuzzer.worker`
(`core/wsdl.py` line 708: `def worker(self, thread_id: int)`). -/
def wsdlWorkerParamCount : Nat := 1

/-- Positional arguments supplied by `BaseFuzzer.run_threads`
(`core/base.py` line 112: `threading.Thread(target=self.worker)`, so the
thread invokes `self.worker()` with zero arguments). -/
def runThreadsArgCount : Nat := 0

/-- Python call protocol: a call whose positional argument count does not
match the parameter count raises `TypeError` before the body runs. -/
def pyCall {α : Type} (paramCount argCount : Nat) (body : Unit → α) : Except String α :=
  if argCount = paramCount then .ok (body ()) else .error "TypeError"

/-- One spawned WSDL worker thread: the thread target is `self.worker`
invoked with `runThreadsArgCount` arguments against a function of
`wsdlWorkerParamCount` parameters.  `body` is whatever state transformation
the worker body would perform on the shared (queue, results) pair; a raising
invocation leaves the state untouched (the thread dies before the body runs). -/
def wsdlThreadInvoke {Q R : Type} (body : List Q × List R → List Q × List R)
    (state : List Q × List R) : List Q × List R :=
  match pyCall wsdlWorkerParamCount runThreadsArgCount (fun _ => body state) with
  | .ok s => s
  | .error _ => state

/-- `BaseFuzzer.run_threads` for the WSDL dialect (`core/base.py` lines
108-118): spawn `n` worker threads in sequence over the shared state. -/
def wsdlRunThreads {Q R : Type} (n : Nat) (body : List Q × List R → List Q × List R)
    (state : List Q × List R) : List Q × List R :=
  match n with
  | 0 => state
  | m + 1 => wsdlRunThreads m body (wsdlThreadInvoke body state)

/-- Every attribute name assigned on a `WSDLFuzzer` instance during
construction: `BaseFuzzer.__init__` (`core/base.py` lines 20-39) followed by
`WSDLFuzzer.__init__` (`core/wsdl.py` lines 30-66, including the
`parse_wsdl` call which assigns `endpoints` at line 339 and the optional
`types_parser` reassignment at line 71). -/
def wsdlInitAttrNames : List String :=
  ["spec_data", "base_url", "proxy", "threads", "output_format", "delay",
   "extra_headers", "results", "notable_results", "endpoints", "queue",
   "lock", "progress", "test_values",
   "wsdl_data", "services", "port_types", "messages", "bindings", "types",
   "soap_test_values", "type_definition", "types_parser"]

/-- Python attribute read `self.<name>` on a constructed `WSDLFuzzer`:
defined iff some initializer assigned it. -/
def wsdlAttrDefined (name : String) : Bool :=
  wsdlInitAttrNames.contains name

/-- The endpoint fields `WSDLFuzzer.prepare_request` reads. -/
structure WsdlDetails where
  location : String
  soapAction : Option String

/-- `WSDLFuzzer.prepare_request` (`core/wsdl.py` lines 481-506) up to and
including the header construction: method is forced to POST, the SOAPAction
value is quote-wrapped when present and unquoted, and the header dict reads
`self.user_agent`.  Reading an attribute no initializer defined raises
`AttributeError`, which aborts the call before the extra-header merge and
SOAP body generation; the `.ok` branch carries an empty placeholder for the
unobtainable attribute value. -/
def wsdlPrepareRequest (details : WsdlDetails) :
    Except String (String × String × List (String × String)) :=
  let method := "POST"
  let url := details.location
  let sa := details.soapAction.getD ""
  let soapAction := if sa ≠ "" ∧ ¬ pyStartsWith sa "\"" then "\"" ++ sa ++ "\"" else sa
  if wsdlAttrDefined "user_agent" then
    .ok (method, url,
      [("Content-Type", "text/xml; charset=utf-8"), ("SOAPAction", soapAction),
       ("User-Agent", "")])
  else
    .error "AttributeError"

/- ===== header assembly (openapi3.py lines 155-227, swagger2.py lines 274-318) ===== -/

/-- Python dict assignment `d[k] = v`: overwrite the existing binding in
place, else append a new one. -/
def dictSet (d : List (String × String)) (k v : String) : List (String × String) :=
  if k ∈ d.map Prod.fst then
    d.map (fun kv => if kv.1 = k then (k, v) else kv)
  else d ++ [(k, v)]

/-- Python `d.update(extras)`: assign each pair of `extras` in order. -/
def dictUpdate (d : List (String × String)) (extras : List (String × String)) :
    List (String × String) :=
  extras.foldl (fun acc kv => dictSet acc kv.1 kv.2) d

/-- One entry of an operation's `parameters` list, keeping the keys the
request builders read (`name`, `in`, `required`, and the nested `schema`'s
`type`/`format`/`enum`). -/
structure Param where
  name : String
  inLoc : Option String
  required : Bool
  schemaType : Option String
  schemaFmt : Option String
  schemaEnum : Option (List JVal)

/-- Python `str(value)` on the scalar test values that reach header fields.
Composite reprs are abbreviated; no claim depends on them. -/
def pyStr : JVal → String
  | .null => "None"
  | .bool true => "True"
  | .bool false => "False"
  | .int n => toString n
  | .flt lit => lit
  | .str s => s
  | .bytes tag => tag
  | .arr _ => "<list>"
  | .obj _ => "<dict>"

/-- The hard-coded default User-Agent of `Swagger2Fuzzer.prepare_request`
(`core/swagger2.py` line 282). -/
def swagger2UA : String :=
  "Mozilla/5.0 (Windows NT 10.0; Win64; x64) AppleWebKit/537.36 (KHTML, like Gecko) Chrome/125.0.0.0 Safari/537.36 GLS/100.10.9939.100"

/-- Header assembly of `Swagger2Fuzzer.prepare_request`
(`core/swagger2.py` lines 281-318) for every non-HEAD/OPTIONS operation,
before body handling: the dict starts with the default User-Agent, then
`headers.update(self.extra_headers)` (line 284), then each `in: header`
parameter writes `str(test_values.get(type, "test"))`.  The body branches
that may run afterwards (lines 345-414) write only the `Content-Type` key,
modelled by `applyBodyCT`. -/
def swagger2HeadersBase (extraHeaders : List (String × String)) (params : List Param) :
    List (String × String) :=
  let h0 := [("User-Agent", swagger2UA)]
  let h1 := dictUpdate h0 extraHeaders
  params.foldl
    (fun h p =>
      if p.inLoc = some "header" then
        dictSet h p.name (pyStr ((testValuesS2 (p.schemaType.getD "string")).getD (.str "test")))
      else h)
    h1

/-- Header assembly of `Swagger2Fuzzer.prepare_request` for HEAD/OPTIONS
operations (`core/swagger2.py` lines 281-304): default User-Agent, extra
headers, then each *required* `in: header` parameter; the builder returns
before any body handling, so this is the complete header mapping. -/
def swagger2HeadersHeadOpts (extraHeaders : List (String × String))
    (params : List Param) : List (String × String) :=
  let h1 := dictUpdate [("User-Agent", swagger2UA)] extraHeaders
  params.foldl
    (fun h p =>
      if p.inLoc = some "header" ∧ p.required then
        dictSet h p.name (pyStr ((testValuesS2 (p.schemaType.getD "string")).getD (.str "test")))
      else h)
    h1

/-- The `headers["Content-Type"] = content_type` write performed by the body
handling of both builders for body-carrying methods (`core/swagger2.py`
lines 345-414, `core/openapi3.py` `_handle_content_type` lines 257-328).
`none` covers requests without that write: body-less methods (GET with the
body-to-query collapse, HEAD, OPTIONS), an unrecognized declared content
type, and the OpenAPI3 multipart branch. -/
def applyBodyCT (h : List (String × String)) (ct : Option String) :
    List (String × String) :=
  match ct with
  | some c => dictSet h "Content-Type" c
  | none => h

/-- Header assembly of `OpenAPI3Fuzzer.prepare_request`
(`core/openapi3.py` lines 155-227) for every non-HEAD/OPTIONS operation,
before body handling: the dict is initialized to
`{"User-Agent": "APIFuzz/2.0"}` (line 160) and the only later writes are
`in: header` parameters (lines 204-208) and, through body handling,
`Content-Type` (`applyBodyCT`).  `self.extra_headers` is never consulted
anywhere in this builder; the `extraHeaders` argument is the fuzzer's
configured field, taken here to exhibit that it is unused. -/
def openapi3HeadersBase (rnd : Nat) (extraHeaders : List (String × String))
    (params : List Param) : List (String × String) :=
  let h0 := [("User-Agent", "APIFuzz/2.0")]
  params.foldl
    (fun h p =>
      if p.inLoc = some "header" then
        dictSet h p.name
          (pyStr (genTestValueO3 rnd (p.schemaType.getD "string") p.schemaFmt none p.schemaEnum))
      else h)
    h0

/-- Header assembly of `OpenAPI3Fuzzer.prepare_request` for HEAD/OPTIONS
operations (`core/openapi3.py` lines 166-183): default User-Agent, then each
*required* `in: header` parameter; the builder returns before any body
handling.  `self.extra_headers` is not consulted here either. -/
def openapi3HeadersHeadOpts (rnd : Nat) (extraHeaders : List (String × String))
    (params : List Param) : List (String × String) :=
  params.foldl
    (fun h p =>
      if p.inLoc = some "header" ∧ p.required then
        dictSet h p.name
          (pyStr (genTestValueO3 rnd (p.schemaType.getD "string") p.schemaFmt none p.schemaEnum))
      else h)
    [("User-Agent", "APIFuzz/2.0")]

/- ===== OpenAPI3 mock_schema (openapi3.py lines 463-525) ===== -/

mutual
/-- All `$ref` strings occurring anywhere in a schema term; used only for
the termination measure of the walker. -/
def Schema.refs : Schema → Finset String
  | .mk r _ _ _ it props => (r.elim ∅ fun x => {x}) ∪ itemsRefs it ∪ propsOptRefs props
/-- Refs of an optional `items` sub-schema. -/
def itemsRefs : Option Schema → Finset String
  | none => ∅
  | some s => s.refs
/-- Refs of an optional `properties` table. -/
def propsOptRefs : Option Props → Finset String
  | none => ∅
  | some ps => ps.refs
/-- All `$ref` strings occurring in a properties table. -/
def Props.refs : Props → Finset String
  | .nil => ∅
  | .cons _ s rest => s.refs ∪ rest.refs
end

/-- All `$ref` strings occurring in the document's schema table. -/
def schemasRefs : List (String × Schema) → Finset String
  | [] => ∅
  | (_, s) :: rest => s.refs ∪ schemasRefs rest

/-- The ref prefix `OpenAPI3Fuzzer.resolve_schema_ref` strips. -/
def o3RefPrefix : String := "#/components/schemas/"

/-- `OpenAPI3Fuzzer.resolve_schema_ref` (`core/openapi3.py` lines 463-470):
a `#/components/schemas/` ref is looked up in `self.schemas` (missing names
give `{}`); any other schema - other ref shapes included - is returned
unchanged. -/
def resolveSchemaRefO3 (M : List (String × Schema)) (s : Schema) : Schema :=
  match s.ref with
  | some r =>
    if pyStartsWith r o3RefPrefix then
      match alookup (pyRemoveAll r o3RefPrefix) M with
      | some sch => sch
      | none => Schema.empty
    else s
  | none => s

/-- `list(properties.items())[:3]`: first `n` entries of a properties table. -/
def Props.take : Nat → Props → Props
  | 0, _ => .nil
  | _, .nil => .nil
  | n + 1, .cons name s rest => .cons name s (Props.take n rest)

/-- Emptiness of a properties table (Python truthiness of the dict). -/
def Props.isNil : Props → Bool
  | .nil => true
  | .cons _ _ _ => false

theorem Schema.ref_mem_refs {s : Schema} {r : String} (h : s.ref = some r) :
    r ∈ s.refs := by
  cases s with
  | mk r0 t f e it props =>
    simp [Schema.ref] at h
    subst h
    simp [Schema.refs]

theorem Schema.empty_refs : Schema.empty.refs = ∅ := by
  simp [Schema.empty, Schema.refs, itemsRefs, propsOptRefs]

theorem alookup_refs_subset {M : List (String × Schema)} {name : String} {sch : Schema}
    (h : alookup name M = some sch) : sch.refs ⊆ schemasRefs M := by
  induction M with
  | nil => simp [alookup] at h
  | cons kv rest ih =>
    obtain ⟨k, v⟩ := kv
    simp only [alookup] at h
    by_cases hk : k = name
    · simp [hk] at h
      subst h
      intro x hx
      simp [schemasRefs]
      exact Or.inl hx
    · simp [hk] at h
      intro x hx
      simp [schemasRefs]
      exact Or.inr (ih h hx)

theorem resolve_refs_subset (M : List (String × Schema)) (s : Schema) :
    (resolveSchemaRefO3 M s).refs ⊆ s.refs ∪ schemasRefs M := by
  rcases hs : s.ref with _ | r
  · simp only [resolveSchemaRefO3, hs]
    exact Finset.subset_union_left
  · by_cases hp : pyStartsWith r o3RefPrefix = true
    · rcases hl : alookup (pyRemoveAll r o3RefPrefix) M with _ | sch
      · simp only [resolveSchemaRefO3, hs, hp, if_true, hl, Schema.empty_refs]
        exact Finset.empty_subset _
      · simp only [resolveSchemaRefO3, hs, hp, if_true, hl]
        exact (alookup_refs_subset hl).trans Finset.subset_union_right
    · simp only [resolveSchemaRefO3, hs, hp, if_false]
      exact Finset.subset_union_left

theorem Schema.items_refs_subset {s it : Schema} (h : s.items = some it) :
    it.refs ⊆ s.refs := by
  cases s with
  | mk r t f e i props =>
    simp [Schema.items] at h
    subst h
    simp only [Schema.refs, itemsRefs]
    intro x hx
    simp
    tauto

theorem Schema.props_refs_subset {s : Schema} {ps : Props} (h : s.properties = some ps) :
    ps.refs ⊆ s.refs := by
  cases s with
  | mk r t f e i props =>
    simp [Schema.properties] at h
    subst h
    simp only [Schema.refs, propsOptRefs]
    intro x hx
    simp
    tauto

theorem Props.take_refs_subset : ∀ (n : Nat) (ps : Props), (ps.take n).refs ⊆ ps.refs
  | n, .nil => by cases n <;> simp [Props.take]
  | 0, .cons name s rest => by
      simp [Props.take, Props.refs]
  | n + 1, .cons name s rest => by
      simp only [Props.take, Props.refs]
      intro x hx
      rcases Finset.mem_union.mp hx with h1 | h2
      · exact Finset.mem_union_left _ h1
      · exact Finset.mem_union_right _ (Props.take_refs_subset n rest h2)

theorem sizeOf_items_lt {s it : Schema} (h : s.items = some it) :
    sizeOf it < sizeOf s := by
  cases s with
  | mk r t f e i props =>
    cases i with
    | none => simp [Schema.items] at h
    | some x =>
      simp [Schema.items] at h
      subst h
      simp only [Schema.mk.sizeOf_spec, Option.some.sizeOf_spec]
      omega

theorem sizeOf_props_lt {s : Schema} {ps : Props} (h : s.properties = some ps) :
    sizeOf ps < sizeOf s := by
  cases s with
  | mk r t f e i props =>
    cases props with
    | none => simp [Schema.properties] at h
    | some x =>
      simp [Schema.properties] at h
      subst h
      simp only [Schema.mk.sizeOf_spec, Option.some.sizeOf_spec]
      omega

theorem sizeOf_take_le : ∀ (n : Nat) (ps : Props), sizeOf (ps.take n) ≤ sizeOf ps
  | n, .nil => by cases n <;> simp [Props.take]
  | 0, .cons name s rest => by
      simp only [Props.take, Props.nil.sizeOf_spec, Props.cons.sizeOf_spec]
      omega
  | n + 1, .cons name s rest => by
      simp only [Props.take, Props.cons.sizeOf_spec]
      have := sizeOf_take_le n rest
      omega

theorem lexOfLeLt {a a' b b' : Nat} (h1 : a' ≤ a) (h2 : b' < b) :
    Prod.Lex (· < ·) (· < ·) (a', b') (a, b) := by
  rcases Nat.lt_or_ge a' a with h | h
  · exact Prod.Lex.left _ _ h
  · have : a' = a := Nat.le_antisymm h1 h
    subst this
    exact Prod.Lex.right _ h2

theorem card_measure_le {A B : Finset String} (SR vis : Finset String) (h : A ⊆ B) :
    ((A ∪ SR) \ vis).card ≤ ((B ∪ SR) \ vis).card := by
  apply Finset.card_le_card
  exact Finset.sdiff_subset_sdiff (Finset.union_subset_union h (le_refl SR)) (le_refl vis)

theorem card_measure_ref_lt {M : List (String × Schema)} {s : Schema}
    {visited : Finset String} {r : String} (hr : s.ref = some r) (hvis : r ∉ visited) :
    (((resolveSchemaRefO3 M s).refs ∪ schemasRefs M) \ insert r visited).card
      < ((s.refs ∪ schemasRefs M) \ visited).card := by
  apply Finset.card_lt_card
  rw [Finset.ssubset_iff_of_subset]
  · refine ⟨r, ?_, ?_⟩
    · exact Finset.mem_sdiff.mpr
        ⟨Finset.mem_union_left _ (Schema.ref_mem_refs hr), hvis⟩
    · intro hmem
      exact (Finset.mem_sdiff.mp hmem).2 (Finset.mem_insert_self r visited)
  · intro x hx
    rcases Finset.mem_sdiff.mp hx with ⟨hin, hnot⟩
    refine Finset.mem_sdiff.mpr ⟨?_, ?_⟩
    · rcases Finset.mem_union.mp hin with h1 | h2
      · exact resolve_refs_subset M s h1
      · exact Finset.mem_union_right _ h2
    · intro hv
      exact hnot (Finset.mem_insert_of_mem hv)

mutual
/-- `OpenAPI3Fuzzer.mock_schema` (`core/openapi3.py` lines 472-525).  The
Python mutable `visited_refs` set (add the ref before the recursive call on
the resolved schema, remove it after) corresponds to passing
`insert r visited` to exactly that call.  The function is total - accepted
by well-founded recursion on (unvisited refs, schema size) - which is the
termination half of the cycle-safety property. -/
def mockSchemaO3 (M : List (String × Schema)) (rnd : Nat) (s : Schema)
    (visited : Finset String) : JVal :=
  match hr : s.ref with
  | some r =>
    if r ∈ visited then .str "<circular-ref>"
    else mockSchemaO3 M rnd (resolveSchemaRefO3 M s) (insert r visited)
  | none =>
    let ty := s.ty.getD "object"
    if ty = "string" ∨ ty = "integer" ∨ ty = "number" ∨ ty = "boolean" ∨ ty = "file" then
      genTestValueO3 rnd ty s.fmt none s.enum
    else if ty = "array" then
      match hi : s.items with
      | some it => .arr [mockSchemaO3 M rnd it visited]
      | none => .arr [.str "test"]
    else if ty = "object" then
      match hp : s.properties with
      | some ps =>
        if ps.isNil then (testValuesO3 "object").getD .null
        else .obj (mockPropsO3 M rnd (ps.take 3) visited)
      | none => (testValuesO3 "object").getD .null
    else genTestValueO3 rnd ty s.fmt none s.enum
termination_by (((s.refs ∪ schemasRefs M) \ visited).card, sizeOf s)
decreasing_by
  · exact Prod.Lex.left _ _ (card_measure_ref_lt hr (by assumption))
  · exact lexOfLeLt (card_measure_le _ _ (Schema.items_refs_subset hi)) (sizeOf_items_lt hi)
  · exact lexOfLeLt
      (card_measure_le _ _ ((Props.take_refs_subset 3 ps).trans (Schema.props_refs_subset hp)))
      (Nat.lt_of_le_of_lt (sizeOf_take_le 3 ps) (sizeOf_props_lt hp))

/-- The loop over `list(properties.items())[:3]` inside `mock_schema`
(`core/openapi3.py` lines 516-521): one entry per kept property, value
produced by the recursive walk. -/
def mockPropsO3 (M : List (String × Schema)) (rnd : Nat) (ps : Props)
    (visited : Finset String) : List (String × JVal) :=
  match ps with
  | .nil => []
  | .cons name p rest =>
    (name, mockSchemaO3 M rnd p visited) :: mockPropsO3 M rnd rest visited
termination_by (((ps.refs ∪ schemasRefs M) \ visited).card, sizeOf ps)
decreasing_by
  · exact lexOfLeLt
      (card_measure_le _ _ (by
        simp only [Props.refs]
        exact Finset.subset_union_left))
      (by simp only [Props.cons.sizeOf_spec]; omega)
  · exact lexOfLeLt
      (card_measure_le _ _ (by
        simp only [Props.refs]
        exact Finset.subset_union_right))
      (by simp only [Props.cons.sizeOf_spec]; omega)
end

/- ===== Swagger2 mock_schema (swagger2.py lines 205-247) ===== -/

/-- Python `ref.split("/")[-1]`. -/
def lastSegment (r : String) : String :=
  (pySplitChar r '/').getLastD ""

/-- `Swagger2Fuzzer.resolve_schema_ref` (`core/swagger2.py` lines 205-212):
a `#/definitions/` ref is looked up by its last path segment in
`self.definitions` (missing names give `{}`); any other schema is returned
unchanged. -/
def resolveSchemaRefS2 (defs : List (String × Schema)) (s : Schema) : Schema :=
  match s.ref with
  | some r =>
    if pyStartsWith r "#/definitions/" then
      match alookup (lastSegment r) defs with
      | some d => d
      | none => Schema.empty
    else s
  | none => s

mutual
/-- `Swagger2Fuzzer.mock_schema` (`core/swagger2.py` lines 214-247), indexed
by explicit call-depth fuel because - unlike the OpenAPI3 walker - this
recursion has no `$ref` cycle guard and is not total: `none` means the
call tree exceeds the given depth; `= none` for every fuel means the Python
original recurses unboundedly (RecursionError).  Faithful points: the ref
is resolved at the top of every call; the `array` branch always recurses on
`schema.get("items", {})` (the Python `isinstance(items, list)` variant for
schema lists is not modelled - no claim touches it); the object branch
fires on `type == "object"` or a present `properties` key; `visited_refs`
receives property *names*, each added only around the recursive call of its
own property. -/
def mockSchemaS2 (defs : List (String × Schema)) (rnd : Nat) (fuel : Nat)
    (s0 : Schema) (visited : List String) : Option JVal :=
  match fuel with
  | 0 => none
  | f + 1 =>
    let s := resolveSchemaRefS2 defs s0
    if s.ty = some "array" then
      match mockSchemaS2 defs rnd f (s.items.getD Schema.empty) visited with
      | some v => some (.arr [v])
      | none => none
    else if s.ty = some "object" ∨ s.properties.isSome then
      match mockPropsS2 defs rnd f (s.properties.getD .nil) visited with
      | some kvs => some (.obj kvs)
      | none => none
    else
      some (genTestValueS2 rnd (s.ty.getD "string") s.fmt none s.enum)
termination_by (fuel, sizeOf s0)
decreasing_by
  all_goals exact Prod.Lex.left _ _ (Nat.lt_succ_self _)

/-- The property loop of `Swagger2Fuzzer.mock_schema` (`core/swagger2.py`
lines 233-240): a property whose *name* is already in `visited_refs` is
skipped; otherwise its name is added for the duration of its own recursive
expansion only. -/
def mockPropsS2 (defs : List (String × Schema)) (rnd : Nat) (fuel : Nat)
    (ps : Props) (visited : List String) : Option (List (String × JVal)) :=
  match ps with
  | .nil => some []
  | .cons name p rest =>
    if name ∈ visited then mockPropsS2 defs rnd fuel rest visited
    else
      match mockSchemaS2 defs rnd fuel p (name :: visited) with
      | some v =>
        match mockPropsS2 defs rnd fuel rest visited with
        | some kvs => some ((name, v) :: kvs)
        | none => none
      | none => none
termination_by (fuel, sizeOf ps)
decreasing_by
  all_goals exact lexOfLeLt (le_refl _) (by simp only [Props.cons.sizeOf_spec]; omega)
end

/- ===== theorems ===== -/

theorem getD_mem_of_lt : ∀ (l : List JVal) (n : Nat), n < l.length → l.getD n .null ∈ l
  | [], n, h => by simp at h
  | x :: xs, 0, _ => by simp [List.getD]
  | x :: xs, n + 1, h => by
      simp only [List.getD_cons_succ]
      exact List.mem_cons_of_mem x (getD_mem_of_lt xs n (by simpa using h))

theorem pyChoice_mem (rnd : Nat) (e : JVal) (es : List JVal) :
    pyChoice rnd (e :: es) ∈ e :: es :=
  getD_mem_of_lt _ _ (Nat.mod_lt _ (by simp))

/-- C8: with a non-empty `enum` list, `generate_test_value` returns a member
of that list, whatever the declared type, format, items and random draw - in
both the OpenAPI3 and the Swagger2 generator. -/
theorem c8_enum_member (rnd : Nat) (ty : String) (fmt : Option String)
    (items : Option Schema) (es : List JVal) (h : es ≠ []) :
    genTestValueO3 rnd ty fmt items (some es) ∈ es ∧
    genTestValueS2 rnd ty fmt items (some es) ∈ es := by
  cases es with
  | nil => exact absurd rfl h
  | cons e tail =>
    constructor
    · simp only [genTestValueO3]
      exact pyChoice_mem rnd e tail
    · simp only [genTestValueS2]
      exact pyChoice_mem rnd e tail

/-- C8 witness: a concrete enum draw lands in the enum for both dialects. -/
theorem c8_enum_member_witness :
    genTestValueO3 7 "integer" (some "int64") none (some [.str "a", .int 2]) ∈
      [JVal.str "a", JVal.int 2] ∧
    genTestValueS2 7 "integer" (some "int64") none (some [.str "a", .int 2]) ∈
      [JVal.str "a", JVal.int 2] :=
  c8_enum_member 7 "integer" (some "int64") none [.str "a", .int 2] (by simp)

/-- C5: a probe whose HTTP exchange succeeds with status code 200 and whose
body contains the interception-tool signature `"Burp Suite"` is recorded
with the sentinel status `"error"`, never `"200"`. -/
theorem c5_burp_reclassified_error (code : Nat) (body : String)
    (h1 : code = 200) (h2 : strContainsSub body "Burp Suite" = true)
    (req : ProbeReq) (ct : String) :
    (mkRecord req ⟨code, ct, body⟩).status = "error" ∧
    (mkRecord req ⟨code, ct, body⟩).status ≠ "200" := by
  subst h1
  have ht : toString (200 : Nat) = "200" := rfl
  constructor
  · simp [mkRecord, classifyStatus, ht, h2]
  · simp [mkRecord, classifyStatus, ht, h2]

/-- C5 witness: a concrete intercepted 200 response is recorded as `"error"`. -/
theorem c5_burp_reclassified_error_witness :
    (mkRecord ⟨"GET", "http://target/api"⟩
        ⟨200, "text/html", "<html>Burp Suite Community</html>"⟩).status = "error" ∧
    (mkRecord ⟨"GET", "http://target/api"⟩
        ⟨200, "text/html", "<html>Burp Suite Community</html>"⟩).status ≠ "200" :=
  c5_burp_reclassified_error 200 "<html>Burp Suite Community</html>" rfl (by decide)
    ⟨"GET", "http://target/api"⟩ "text/html"

/-- C9: `run_threads` starts every WSDL worker as a zero-argument call of a
one-positional-parameter function, so each spawned thread raises `TypeError`
before running any worker code; consequently, for any queue and any thread
count, no endpoint is dequeued and the results collection stays empty. -/
theorem c9_wsdl_worker_type_error :
    (∀ (α : Type) (body : Unit → α),
      pyCall wsdlWorkerParamCount runThreadsArgCount body = .error "TypeError") ∧
    (∀ (Q R : Type) (n : Nat) (body : List Q × List R → List Q × List R)
        (queue : List Q),
      wsdlRunThreads n body (queue, ([] : List R)) = (queue, [])) := by
  constructor
  · intro α body
    simp [pyCall, wsdlWorkerParamCount, runThreadsArgCount]
  · intro Q R n body queue
    induction n with
    | zero => simp [wsdlRunThreads]
    | succ m ih =>
      simp [wsdlRunThreads, wsdlThreadInvoke, pyCall, wsdlWorkerParamCount,
        runThreadsArgCount]
      exact ih

/-- C10: building a WSDL probe request always raises `AttributeError`: the
header dict reads `self.user_agent` and no initializer ever defines a
`user_agent` attribute. -/
theorem c10_wsdl_prepare_attribute_error (details : WsdlDetails) :
    wsdlPrepareRequest details = .error "AttributeError" := by
  have h : wsdlAttrDefined "user_agent" = false := by decide
  simp [wsdlPrepareRequest, h]

/-- Operations of one path kept by `extract_endpoints`: those whose
upper-cased verb is supported, tagged with the upper-cased verb. -/
def keptOps {α : Type} (p : String) (ms : List (String × α)) :
    List (String × String × α) :=
  ms.filterMap fun md =>
    if pyUpper md.1 ∈ supportedMethods then some (pyUpper md.1, p, md.2) else none

theorem inner_foldl_eq {α : Type} (p : String) :
    ∀ (ms : List (String × α)) (acc : List (String × String × α)),
      ms.foldl
        (fun acc2 md =>
          if pyUpper md.1 ∈ supportedMethods then acc2 ++ [(pyUpper md.1, p, md.2)]
          else acc2)
        acc
      = acc ++ keptOps p ms
  | [], acc => by simp [keptOps]
  | md :: ms, acc => by
      by_cases h : pyUpper md.1 ∈ supportedMethods
      · simp only [List.foldl_cons, h, if_true, keptOps, List.filterMap_cons]
        rw [inner_foldl_eq p ms]
        simp [keptOps]
      · simp only [List.foldl_cons, h, if_false, keptOps, List.filterMap_cons]
        rw [inner_foldl_eq p ms]
        simp [keptOps, h]

theorem extract_foldl_eq {α : Type} :
    ∀ (paths : List (String × List (String × α))) (acc : List (String × String × α)),
      paths.foldl
        (fun acc pm =>
          pm.2.foldl
            (fun acc2 md =>
              if pyUpper md.1 ∈ supportedMethods then acc2 ++ [(pyUpper md.1, pm.1, md.2)]
              else acc2)
            acc)
        acc
      = acc ++ (paths.map fun pm => keptOps pm.1 pm.2).flatten
  | [], acc => by simp
  | pm :: paths, acc => by
      simp only [List.foldl_cons, List.map_cons, List.flatten_cons]
      rw [inner_foldl_eq pm.1 pm.2 acc, extract_foldl_eq paths]
      simp

theorem extractEndpoints_eq {α : Type} (paths : List (String × List (String × α))) :
    extractEndpoints paths = (paths.map fun pm => keptOps pm.1 pm.2).flatten := by
  unfold extractEndpoints
  rw [extract_foldl_eq paths []]
  simp

theorem keptOps_length_all {α : Type} (p : String) :
    ∀ (ms : List (String × α)), (∀ md ∈ ms, pyUpper md.1 ∈ supportedMethods) →
      (keptOps p ms).length = ms.length
  | [], _ => by simp [keptOps]
  | md :: ms, h => by
      have h1 : pyUpper md.1 ∈ supportedMethods := h md (List.mem_cons_self md ms)
      simp only [keptOps, List.filterMap_cons, h1, if_true]
      have := keptOps_length_all p ms (fun x hx => h x (List.mem_cons_of_mem md hx))
      simp only [keptOps] at this
      simp [this]

theorem keptOps_method_supported {α : Type} {p : String} {ms : List (String × α)}
    {e : String × String × α} (h : e ∈ keptOps p ms) : e.1 ∈ supportedMethods := by
  rcases List.mem_filterMap.mp h with ⟨md, _, hf⟩
  by_cases hc : pyUpper md.1 ∈ supportedMethods
  · rw [if_pos hc] at hf
    cases hf
    exact hc
  · rw [if_neg hc] at hf
    cases hf

theorem keptOps_length_filter {α : Type} (p : String) :
    ∀ ms : List (String × α),
      (keptOps p ms).length
        = (ms.filter fun md => decide (pyUpper md.1 ∈ supportedMethods)).length
  | [] => by simp [keptOps]
  | md :: ms => by
      have ih := keptOps_length_filter p ms
      by_cases h : pyUpper md.1 ∈ supportedMethods
      · simp only [keptOps, List.filterMap_cons, if_pos h, List.filter_cons,
          decide_eq_true h, List.length_cons]
        simp only [keptOps] at ih
        simp [ih]
      · simp only [keptOps, List.filterMap_cons, if_neg h, List.filter_cons,
          decide_eq_false h]
        simp only [keptOps] at ih
        simp [ih]

/-- C4: three facts about `extract_endpoints`, the last two unconditional:
(1) a document whose every declared verb is supported (after upper-casing)
yields exactly one endpoint per declared operation; (2) for *any* document,
the number of extracted endpoints equals the number of declared operations
whose upper-cased verb is supported, so every operation declared with an
unsupported verb is excluded and nothing else is (zero false inclusions);
(3) every extracted endpoint's method is one of the seven supported verbs.
The definition covers both dialects (`core/openapi3.py` lines 130-153 and
`core/swagger2.py` lines 249-259 iterate identically). -/
theorem c4_extract_exact_coverage {α : Type}
    (paths : List (String × List (String × α))) :
    ((∀ pm ∈ paths, ∀ md ∈ pm.2, pyUpper md.1 ∈ supportedMethods) →
      (extractEndpoints paths).length = totalOps paths) ∧
    (extractEndpoints paths).length
      = (paths.map fun pm =>
          (pm.2.filter fun md => decide (pyUpper md.1 ∈ supportedMethods)).length).sum ∧
    ∀ e ∈ extractEndpoints paths, e.1 ∈ supportedMethods := by
  refine ⟨?_, ?_, ?_⟩
  · intro hall
    rw [extractEndpoints_eq, List.length_flatten, List.map_map, totalOps]
    congr 1
    apply List.map_congr_left
    intro pm hpm
    exact keptOps_length_all pm.1 pm.2 (hall pm hpm)
  · rw [extractEndpoints_eq, List.length_flatten, List.map_map]
    congr 1
    apply List.map_congr_left
    intro pm _
    exact keptOps_length_filter pm.1 pm.2
  · intro e he
    rw [extractEndpoints_eq] at he
    rcases List.mem_flatten.mp he with ⟨l, hl, hel⟩
    rcases List.mem_map.mp hl with ⟨pm, _, rfl⟩
    exact keptOps_method_supported hel

/-- A two-path, three-operation document for the C4 witness, every verb
supported. -/
def c4Demo : List (String × List (String × Nat)) :=
  [("/users/{id}", [("get", 0), ("post", 1)]), ("/health", [("head", 2)])]

/-- A document that also declares an unsupported `trace` operation. -/
def c4DemoMixed : List (String × List (String × Nat)) :=
  [("/users/{id}", [("get", 0), ("trace", 1)]), ("/health", [("head", 2)])]

/-- C4 witness: the all-supported demo yields exactly its 3 operations, and
the mixed demo yields exactly its 2 supported operations, excluding the
`trace` one. -/
theorem c4_extract_exact_coverage_witness :
    (extractEndpoints c4Demo).length = 3 ∧ (extractEndpoints c4DemoMixed).length = 2 := by
  constructor
  · exact ((c4_extract_exact_coverage c4Demo).1 (by decide)).trans (by rfl)
  · exact ((c4_extract_exact_coverage c4DemoMixed).2.1).trans (by rfl)

theorem workerRun_spec :
    ∀ (tasks : List FuzzTask) (acc : List WorkerRecord),
      (∀ t ∈ tasks, t.buildOk = true) →
      (workerRun tasks acc).results.length
          = acc.length + (tasks.filter (·.sendOk)).length ∧
      (workerRun tasks acc).remaining = [] ∧
      (workerRun tasks acc).normalExit = true
  | [], acc, _ => by simp [workerRun]
  | t :: ts, acc, h => by
      have hb : t.buildOk = true := h t (List.mem_cons_self t ts)
      have hrest : ∀ x ∈ ts, x.buildOk = true :=
        fun x hx => h x (List.mem_cons_of_mem t hx)
      match hbt : t.build with
      | .exn m => simp [FuzzTask.buildOk, hbt] at hb
      | .ok req =>
        match hst : t.send with
        | .exn m =>
          have := workerRun_spec ts acc hrest
          simp only [workerRun, hbt, hst]
          simpa [List.filter_cons, FuzzTask.sendOk, hst] using this
        | .ok resp =>
          have := workerRun_spec ts (acc ++ [mkRecord req resp]) hrest
          simp only [workerRun, hbt, hst]
          simp only [List.length_append, List.length_cons, List.length_nil] at this
          simpa [List.filter_cons, FuzzTask.sendOk, hst, Nat.add_assoc,
            Nat.add_comm 1] using this

/-- C2 counterexample: a queue of M = 1 endpoint whose HTTP send raises ends
the run with zero records in the shared results collection - the worker only
prints the error and never appends a failure row - so the "exactly M
terminal records, failures included" property is false on the code. -/
theorem c2_send_failure_drops_record :
    (workerRun [⟨.ok ⟨"GET", "http://t/a"⟩, .exn "timeout"⟩] []).results.length = 0 ∧
    (0 : Nat) ≠ 1 := by
  constructor
  · rfl
  · decide

/-- C2 amended: the results collection receives exactly one record per task
whose send succeeds and none for a task whose send raises (that failure is
reported only on the console), so a completed run over build-safe tasks ends
with one record per *successful* exchange, not one per task. -/
theorem c2_records_count_successes (tasks : List FuzzTask)
    (hbuild : ∀ t ∈ tasks, t.buildOk = true) :
    (workerRun tasks []).results.length = (tasks.filter (·.sendOk)).length := by
  have := (workerRun_spec tasks [] hbuild).1
  simpa using this

/-- Demo queue for the C2 witness: two tasks, one send succeeds, one raises. -/
def c2Demo : List FuzzTask :=
  [⟨.ok ⟨"GET", "http://t/a"⟩, .ok ⟨200, "text/json", "ok"⟩⟩,
   ⟨.ok ⟨"GET", "http://t/b"⟩, .exn "connection refused"⟩]

/-- C2 witness: on the demo queue of two build-safe tasks with one send
failure, the run ends with exactly one record. -/
theorem c2_records_count_successes_witness :
    (workerRun c2Demo []).results.length = 1 :=
  (c2_records_count_successes c2Demo (by decide)).trans (by rfl)

/-- C3 counterexample: a `prepare_request` exception is not caught by any
handler in the worker loop, so it terminates the worker thread; with a
single worker the remaining M-1 = 1 queued endpoint is never dispatched. -/
theorem c3_build_failure_kills_worker :
    (workerRun [⟨.exn "boom", .ok ⟨200, "t", "b"⟩⟩,
                ⟨.ok ⟨"GET", "http://t/b"⟩, .ok ⟨200, "t", "b"⟩⟩] []).remaining =
      [⟨.ok ⟨"GET", "http://t/b"⟩, .ok ⟨200, "t", "b"⟩⟩] ∧
    (workerRun [⟨.exn "boom", .ok ⟨200, "t", "b"⟩⟩,
                ⟨.ok ⟨"GET", "http://t/b"⟩, .ok ⟨200, "t", "b"⟩⟩] []).normalExit = false := by
  constructor
  · rfl
  · rfl

/-- C3 amended: only the send phase is exception-isolated.  If no task's
`prepare_request` raises, the worker drains the whole queue and exits
normally no matter how many sends raise; a build failure, by contrast,
terminates the worker with the rest of the queue undequeued (see the
counterexample). -/
theorem c3_send_failures_isolated (tasks : List FuzzTask)
    (hbuild : ∀ t ∈ tasks, t.buildOk = true) :
    (workerRun tasks []).remaining = [] ∧ (workerRun tasks []).normalExit = true :=
  (workerRun_spec tasks [] hbuild).2

/-- C3 witness: a queue whose first send raises still drains to the end. -/
theorem c3_send_failures_isolated_witness :
    (workerRun [⟨.ok ⟨"GET", "http://t/a"⟩, .exn "timeout"⟩,
                ⟨.ok ⟨"GET", "http://t/b"⟩, .ok ⟨200, "t", "b"⟩⟩] []).remaining = [] ∧
    (workerRun [⟨.ok ⟨"GET", "http://t/a"⟩, .exn "timeout"⟩,
                ⟨.ok ⟨"GET", "http://t/b"⟩, .ok ⟨200, "t", "b"⟩⟩] []).normalExit = true :=
  c3_send_failures_isolated _ (by decide)

theorem alookup_map_replace (k : String) (v : String) :
    ∀ d : List (String × String), k ∈ d.map Prod.fst →
      alookup k (d.map (fun kv => if kv.1 = k then (k, v) else kv)) = some v
  | [], h => by simp at h
  | (k0, v0) :: rest, h => by
      by_cases hk : k0 = k
      · subst hk
        rw [List.map_cons]
        have hh : (if ((k0, v0) : String × String).1 = k0 then ((k0, v) : String × String)
            else (k0, v0)) = (k0, v) := by simp
        rw [hh]
        simp [alookup]
      · have hrest : k ∈ rest.map Prod.fst := by
          rw [List.map_cons] at h
          rcases List.mem_cons.mp h with h1 | h1
          · exact absurd h1.symm hk
          · exact h1
        rw [List.map_cons]
        have hh : (if ((k0, v0) : String × String).1 = k then ((k, v) : String × String)
            else (k0, v0)) = (k0, v0) := by simp [hk]
        rw [hh]
        simp only [alookup, if_neg hk]
        exact alookup_map_replace k v rest hrest

theorem alookup_map_replace_ne (k k0 v0 : String) (hne : k0 ≠ k) :
    ∀ d : List (String × String),
      alookup k (d.map (fun kv => if kv.1 = k0 then (k0, v0) else kv)) = alookup k d
  | [] => by simp [alookup]
  | (k1, v1) :: rest => by
      by_cases h1 : k1 = k0
      · subst h1
        rw [List.map_cons]
        have hh : (if ((k1, v1) : String × String).1 = k1 then ((k1, v0) : String × String)
            else (k1, v1)) = (k1, v0) := by simp
        rw [hh]
        simp only [alookup, if_neg hne]
        exact alookup_map_replace_ne k k1 v0 hne rest
      · rw [List.map_cons]
        have hh : (if ((k1, v1) : String × String).1 = k0 then ((k0, v0) : String × String)
            else (k1, v1)) = (k1, v1) := by simp [h1]
        rw [hh]
        simp only [alookup]
        by_cases h2 : k1 = k
        · rw [if_pos h2, if_pos h2]
        · rw [if_neg h2, if_neg h2]
          exact alookup_map_replace_ne k k0 v0 hne rest

theorem alookup_append_none (k : String) :
    ∀ d1 d2 : List (String × String), alookup k d1 = none →
      alookup k (d1 ++ d2) = alookup k d2
  | [], d2, _ => by simp
  | (k0, v0) :: rest, d2, h => by
      by_cases hk : k0 = k
      · simp [alookup, hk] at h
      · simp only [alookup, if_neg hk] at h
        simp only [List.cons_append, alookup, if_neg hk]
        exact alookup_append_none k rest d2 h

theorem alookup_append_some (k : String) {v : String} :
    ∀ d1 d2 : List (String × String), alookup k d1 = some v →
      alookup k (d1 ++ d2) = some v
  | [], d2, h => by simp [alookup] at h
  | (k0, v0) :: rest, d2, h => by
      by_cases hk : k0 = k
      · simp only [alookup, if_pos hk] at h
        simp [alookup, hk, h]
      · simp only [alookup, if_neg hk] at h
        simp only [List.cons_append, alookup, if_neg hk]
        exact alookup_append_some k rest d2 h

theorem alookup_none_of_not_mem (k : String) :
    ∀ d : List (String × String), k ∉ d.map Prod.fst → alookup k d = none
  | [], _ => rfl
  | (k0, v0) :: rest, h => by
      rw [List.map_cons] at h
      have h1 : k0 ≠ k := fun hk => h (by simp [hk])
      have h2 : k ∉ rest.map Prod.fst := fun hm => h (List.mem_cons_of_mem _ hm)
      simp only [alookup, if_neg h1]
      exact alookup_none_of_not_mem k rest h2

theorem alookup_dictSet_self (d : List (String × String)) (k v : String) :
    alookup k (dictSet d k v) = some v := by
  unfold dictSet
  by_cases h : k ∈ d.map Prod.fst
  · rw [if_pos h]
    exact alookup_map_replace k v d h
  · rw [if_neg h]
    rw [alookup_append_none k d _ (alookup_none_of_not_mem k d h)]
    simp [alookup]

theorem alookup_dictSet_ne (d : List (String × String)) (k k0 v0 : String)
    (hne : k0 ≠ k) : alookup k (dictSet d k0 v0) = alookup k d := by
  unfold dictSet
  by_cases h : k0 ∈ d.map Prod.fst
  · rw [if_pos h]
    exact alookup_map_replace_ne k k0 v0 hne d
  · rw [if_neg h]
    match hl : alookup k d with
    | some v => exact alookup_append_some k d _ hl
    | none =>
      rw [alookup_append_none k d _ hl]
      simp [alookup, hne]

theorem alookup_dictUpdate_not_mem (k : String) :
    ∀ (extras : List (String × String)) (d : List (String × String)),
      k ∉ extras.map Prod.fst →
      alookup k (dictUpdate d extras) = alookup k d
  | [], d, _ => rfl
  | (k0, v0) :: rest, d, h => by
      rw [List.map_cons] at h
      have h1 : k0 ≠ k := fun hk => h (by simp [hk])
      have h2 : k ∉ rest.map Prod.fst := fun hm => h (List.mem_cons_of_mem _ hm)
      simp only [dictUpdate, List.foldl_cons]
      have hstep : alookup k (dictUpdate (dictSet d k0 v0) rest)
          = alookup k (dictSet d k0 v0) :=
        alookup_dictUpdate_not_mem k rest (dictSet d k0 v0) h2
      simp only [dictUpdate] at hstep
      rw [hstep]
      exact alookup_dictSet_ne d k k0 v0 h1

theorem alookup_dictUpdate_mem (k v : String) :
    ∀ (extras : List (String × String)) (d : List (String × String)),
      (extras.map Prod.fst).Nodup → (k, v) ∈ extras →
      alookup k (dictUpdate d extras) = some v
  | [], d, _, hmem => by simp at hmem
  | (k0, v0) :: rest, d, hnd, hmem => by
      simp only [List.map_cons, List.nodup_cons] at hnd
      rcases List.mem_cons.mp hmem with heq | hmem2
      · cases heq
        simp only [dictUpdate, List.foldl_cons]
        have hstep : alookup k (dictUpdate (dictSet d k v) rest)
            = alookup k (dictSet d k v) :=
          alookup_dictUpdate_not_mem k rest (dictSet d k v) hnd.1
        simp only [dictUpdate] at hstep
        rw [hstep]
        exact alookup_dictSet_self d k v
      · simp only [dictUpdate, List.foldl_cons]
        exact alookup_dictUpdate_mem k v rest (dictSet d k0 v0) hnd.2 hmem2

theorem alookup_s2_param_fold (k : String) :
    ∀ (params : List Param) (h0 : List (String × String)),
      (∀ p ∈ params, p.inLoc = some "header" → p.name ≠ k) →
      alookup k
        (params.foldl
          (fun h p =>
            if p.inLoc = some "header" then
              dictSet h p.name
                (pyStr ((testValuesS2 (p.schemaType.getD "string")).getD (.str "test")))
            else h)
          h0)
      = alookup k h0
  | [], h0, _ => rfl
  | p :: ps, h0, hp => by
      simp only [List.foldl_cons]
      by_cases hh : p.inLoc = some "header"
      · rw [if_pos hh]
        rw [alookup_s2_param_fold k ps _ (fun q hq => hp q (List.mem_cons_of_mem p hq))]
        exact alookup_dictSet_ne h0 k p.name _ (hp p (List.mem_cons_self p ps) hh)
      · rw [if_neg hh]
        exact alookup_s2_param_fold k ps h0 (fun q hq => hp q (List.mem_cons_of_mem p hq))

theorem alookup_s2_reqheader_fold (k : String) :
    ∀ (params : List Param) (h0 : List (String × String)),
      (∀ p ∈ params, p.inLoc = some "header" → p.name ≠ k) →
      alookup k
        (params.foldl
          (fun h p =>
            if p.inLoc = some "header" ∧ p.required then
              dictSet h p.name
                (pyStr ((testValuesS2 (p.schemaType.getD "string")).getD (.str "test")))
            else h)
          h0)
      = alookup k h0
  | [], h0, _ => rfl
  | p :: ps, h0, hp => by
      simp only [List.foldl_cons]
      by_cases hh : p.inLoc = some "header" ∧ p.required
      · rw [if_pos hh]
        rw [alookup_s2_reqheader_fold k ps _ (fun q hq => hp q (List.mem_cons_of_mem p hq))]
        exact alookup_dictSet_ne h0 k p.name _ (hp p (List.mem_cons_self p ps) hh.1)
      · rw [if_neg hh]
        exact alookup_s2_reqheader_fold k ps h0 (fun q hq => hp q (List.mem_cons_of_mem p hq))

/-- C6 counterexample: the OpenAPI3 request builder never merges the
configured extra headers - a request built with a user-supplied
`X-Api-Key` header carries only the default User-Agent, so the layering
described by the claim does not happen in the OpenAPI3 dialect. -/
theorem c6_openapi3_ignores_extra_headers :
    openapi3HeadersBase 0 [("X-Api-Key", "secret")] [] = [("User-Agent", "APIFuzz/2.0")] ∧
    alookup "X-Api-Key" (openapi3HeadersBase 0 [("X-Api-Key", "secret")] []) = none := by
  constructor
  · rfl
  · rfl

/-- C6 amended, covering every request either builder produces: in the
Swagger2 builder the layering is default User-Agent, then every user extra
header, then header parameters, then - for body-carrying builds only - a
`Content-Type` write from body handling; consequently each extra header
whose key names no header parameter and is not `Content-Type` is present in
every built Swagger2 request (HEAD/OPTIONS builds have no body write, so
there only the header-parameter condition is needed).  The OpenAPI3 builder
never consults the extra headers: both its header assemblies are independent
of them, for every method. -/
theorem c6_header_layering_amended :
    (∀ (rnd : Nat) (extras : List (String × String)) (params : List Param)
        (ct : Option String),
      applyBodyCT (openapi3HeadersBase rnd extras params) ct
        = applyBodyCT (openapi3HeadersBase rnd [] params) ct) ∧
    (∀ (rnd : Nat) (extras : List (String × String)) (params : List Param),
      openapi3HeadersHeadOpts rnd extras params = openapi3HeadersHeadOpts rnd [] params) ∧
    (∀ (extras : List (String × String)) (params : List Param) (ct : Option String)
        (k v : String),
      (extras.map Prod.fst).Nodup → (k, v) ∈ extras →
      (∀ p ∈ params, p.inLoc = some "header" → p.name ≠ k) → k ≠ "Content-Type" →
      alookup k (applyBodyCT (swagger2HeadersBase extras params) ct) = some v) ∧
    (∀ (extras : List (String × String)) (params : List Param) (k v : String),
      (extras.map Prod.fst).Nodup → (k, v) ∈ extras →
      (∀ p ∈ params, p.inLoc = some "header" → p.name ≠ k) →
      alookup k (swagger2HeadersHeadOpts extras params) = some v) := by
  refine ⟨?_, ?_, ?_, ?_⟩
  · intro rnd extras params ct
    rfl
  · intro rnd extras params
    rfl
  · intro extras params ct k v hnd hmem hp hct
    have hbase : alookup k (swagger2HeadersBase extras params) = some v := by
      unfold swagger2HeadersBase
      rw [alookup_s2_param_fold k params _ hp]
      exact alookup_dictUpdate_mem k v extras _ hnd hmem
    match ct with
    | none => exact hbase
    | some c =>
      show alookup k (dictSet (swagger2HeadersBase extras params) "Content-Type" c) = some v
      rw [alookup_dictSet_ne _ k "Content-Type" c (fun h => hct h.symm)]
      exact hbase
  · intro extras params k v hnd hmem hp
    unfold swagger2HeadersHeadOpts
    rw [alookup_s2_reqheader_fold k params _ hp]
    exact alookup_dictUpdate_mem k v extras _ hnd hmem

/-- C6 witness: a concrete extra header survives into a body-carrying
Swagger2 build whose body handling then writes `Content-Type`. -/
theorem c6_header_layering_amended_witness :
    alookup "X-Api-Key"
      (applyBodyCT
        (swagger2HeadersBase [("X-Api-Key", "secret")]
          [⟨"q", some "query", false, some "string", none, none⟩])
        (some "application/json")) = some "secret" :=
  c6_header_layering_amended.2.2.1 [("X-Api-Key", "secret")]
    [⟨"q", some "query", false, some "string", none, none⟩] (some "application/json")
    "X-Api-Key" "secret" (by decide) (by decide) (by decide) (by decide)

/-- Declared property names of a properties table, in order. -/
def propNames : Props → List String
  | .nil => []
  | .cons n _ rest => n :: propNames rest

theorem mockPropsO3_names :
    ∀ (M : List (String × Schema)) (rnd : Nat) (ps : Props) (visited : Finset String),
      (mockPropsO3 M rnd ps visited).map Prod.fst = propNames ps
  | M, rnd, .nil, visited => by simp [mockPropsO3, propNames]
  | M, rnd, .cons n p rest, visited => by
      simp only [mockPropsO3, List.map_cons, propNames, List.cons.injEq]
      exact ⟨trivial, mockPropsO3_names M rnd rest visited⟩

theorem propNames_take : ∀ (n : Nat) (ps : Props),
    propNames (ps.take n) = (propNames ps).take n
  | n, .nil => by cases n <;> simp [Props.take, propNames]
  | 0, .cons a s rest => by simp [Props.take, propNames]
  | n + 1, .cons a s rest => by
      simp only [Props.take, propNames, List.take_succ_cons, List.cons.injEq]
      exact ⟨trivial, propNames_take n rest⟩

/-- Four declared string properties. -/
def fourProps : Props :=
  .cons "p1" (Schema.ofType "string")
    (.cons "p2" (Schema.ofType "string")
      (.cons "p3" (Schema.ofType "string")
        (.cons "p4" (Schema.ofType "string") .nil)))

/-- An object schema declaring the four properties of `fourProps`. -/
def objFour : Schema :=
  .mk none (some "object") none none none (some fourProps)

/-- C7 counterexample: the OpenAPI3 walker expands an object with four
declared properties into a mapping with only three entries -
`list(properties.items())[:3]` is a hard-coded cap, not a configurable
constant defaulting to unlimited - so the declared property `p4` is omitted
from the expanded value. -/
theorem c7_openapi3_caps_three_properties :
    mockSchemaO3 [] 0 objFour ∅ =
      .obj [("p1", .str "test"), ("p2", .str "test"), ("p3", .str "test")] ∧
    ∀ kvs, mockSchemaO3 [] 0 objFour ∅ = JVal.obj kvs → alookup "p4" kvs = none := by
  have h1 : mockSchemaO3 [] 0 objFour ∅ =
      .obj [("p1", .str "test"), ("p2", .str "test"), ("p3", .str "test")] := by
    simp [mockSchemaO3, mockPropsO3, objFour, fourProps, Schema.ofType, Schema.ref,
      Schema.ty, Schema.fmt, Schema.enum, Schema.items, Schema.properties, Props.take,
      Props.isNil, genTestValueO3, genTestValueLeafO3, testValuesO3]
  refine ⟨h1, ?_⟩
  intro kvs hk
  rw [h1] at hk
  injection hk with h2
  subst h2
  rfl

theorem mockSchemaS2_string (defs : List (String × Schema)) (rnd f : Nat)
    (visited : List String) :
    mockSchemaS2 defs rnd (f + 1) (Schema.ofType "string") visited =
      some (.str "test_string") := by
  simp [mockSchemaS2, resolveSchemaRefS2, Schema.ofType, Schema.ref, Schema.ty,
    Schema.properties, Schema.fmt, Schema.enum, genTestValueS2, genTestValueLeafS2,
    testValuesS2]

/-- A properties table of plain string-typed properties, one per name. -/
def strProps : List String → Props
  | [] => .nil
  | n :: ns => .cons n (Schema.ofType "string") (strProps ns)

theorem mockPropsS2_strProps :
    ∀ (defs : List (String × Schema)) (rnd f : Nat) (names : List String)
      (visited : List String), (∀ n ∈ names, n ∉ visited) →
      mockPropsS2 defs rnd (f + 1) (strProps names) visited
        = some (names.map fun n => (n, JVal.str "test_string"))
  | defs, rnd, f, [], visited, _ => by simp [strProps, mockPropsS2]
  | defs, rnd, f, n :: ns, visited, h => by
      have hn : n ∉ visited := h n (List.mem_cons_self n ns)
      have hns : ∀ m ∈ ns, m ∉ visited := fun m hm => h m (List.mem_cons_of_mem n hm)
      rw [show strProps (n :: ns) = Props.cons n (Schema.ofType "string") (strProps ns)
        from rfl]
      simp only [mockPropsS2, if_neg hn]
      rw [mockSchemaS2_string defs rnd f (n :: visited),
        mockPropsS2_strProps defs rnd f ns visited hns]
      simp

/-- C7 amended: the OpenAPI3 walker expands exactly the first three declared
properties - the `[:3]` cap is hard-coded, neither configurable nor
unlimited - while the Swagger2 walker has no count cap and (with enough call
depth) expands every declared property of a top-level object whose property
names are not already on the expansion path. -/
theorem c7_property_cap_amended :
    (∀ (M : List (String × Schema)) (rnd : Nat) (fmt : Option String)
        (e : Option (List JVal)) (it : Option Schema) (ps : Props)
        (visited : Finset String), ps.isNil = false →
      ∃ kvs, mockSchemaO3 M rnd (Schema.mk none (some "object") fmt e it (some ps))
          visited = .obj kvs ∧ kvs.map Prod.fst = (propNames ps).take 3) ∧
    (∀ (defs : List (String × Schema)) (rnd f : Nat) (names : List String)
        (visited : List String), (∀ n ∈ names, n ∉ visited) →
      mockSchemaS2 defs rnd (f + 2)
          (Schema.mk none (some "object") none none none (some (strProps names)))
          visited
        = some (.obj (names.map fun n => (n, JVal.str "test_string")))) := by
  constructor
  · intro M rnd fmt e it ps visited hNil
    refine ⟨mockPropsO3 M rnd (ps.take 3) visited, ?_, ?_⟩
    · simp [mockSchemaO3, Schema.ref, Schema.ty, Schema.fmt, Schema.enum, Schema.items,
        Schema.properties, hNil]
    · rw [mockPropsO3_names, propNames_take]
  · intro defs rnd f names visited h
    simp only [mockSchemaS2, resolveSchemaRefS2, Schema.ref, Schema.ty, Schema.properties]
    rw [show ((some (strProps names)).getD Props.nil) = strProps names from rfl,
      mockPropsS2_strProps defs rnd f names visited h]
    simp

/-- C7 witness: the four-property demo object expands to exactly the keys
`p1, p2, p3` under the OpenAPI3 walker. -/
theorem c7_property_cap_amended_witness :
    ∃ kvs, mockSchemaO3 [] 0 objFour ∅ = JVal.obj kvs ∧
      kvs.map Prod.fst = ["p1", "p2", "p3"] := by
  obtain ⟨kvs, hv, hn⟩ :=
    c7_property_cap_amended.1 [] 0 none none none fourProps ∅ rfl
  exact ⟨kvs, hv, by rw [hn]; rfl⟩

/-- A Swagger 2.0 definitions table with an array-items `$ref` cycle:
`A = {"type": "array", "items": {"$ref": "#/definitions/A"}}`. -/
def s2CycDefs : List (String × Schema) :=
  [("A", Schema.mk none (some "array") none none
      (some (Schema.ofRef "#/definitions/A")) none)]

/-- The schema `{"$ref": "#/definitions/A"}` entering the cycle. -/
def s2CycRef : Schema := Schema.ofRef "#/definitions/A"

/-- C1 counterexample: on the array-items `$ref` cycle `A -> items -> A`,
the Swagger2 walker returns within *no* finite call depth - the fuel-indexed
embedding returns `none` for every fuel - so the Python original recurses
unboundedly (`RecursionError`), and in particular it never produces the
`"<circular-ref>"` sentinel (which appears nowhere in `core/swagger2.py`).
The claim therefore fails for the Swagger2 walker. -/
theorem c1_swagger2_array_ref_cycle_diverges :
    mockSchemaS2 s2CycDefs 0 1000 s2CycRef [] = none ∧
    ∀ (fuel : Nat) (visited : List String),
      mockSchemaS2 s2CycDefs 0 fuel s2CycRef visited = none := by
  have hdiv : ∀ (fuel : Nat) (visited : List String),
      mockSchemaS2 s2CycDefs 0 fuel (Schema.ofRef "#/definitions/A") visited = none := by
    intro fuel
    induction fuel with
    | zero =>
      intro visited
      simp [mockSchemaS2]
    | succ f ih =>
      intro visited
      have hres : resolveSchemaRefS2 s2CycDefs (Schema.ofRef "#/definitions/A")
          = Schema.mk none (some "array") none none
              (some (Schema.ofRef "#/definitions/A")) none := rfl
      simp only [mockSchemaS2, hres, Schema.ty, Schema.items, Option.getD]
      simp [ih]
  exact ⟨hdiv 1000 [], hdiv⟩

/-- C1 amended: the cycle-safety property holds for the OpenAPI3 walker -
`mockSchemaO3` is a total function (its acceptance by well-founded recursion
on (unvisited refs, schema size) is the termination proof), and a `$ref`
already in the visited set of the current expansion yields the
`"<circular-ref>"` sentinel instead of recursing.  The Swagger2 walker does
not have this guard (see the counterexample). -/
theorem c1_openapi3_cycle_sentinel (M : List (String × Schema)) (rnd : Nat)
    (s : Schema) (visited : Finset String) (r : String)
    (h1 : s.ref = some r) (h2 : r ∈ visited) :
    mockSchemaO3 M rnd s visited = .str "<circular-ref>" := by
  cases s with
  | mk r0 t f e it props =>
    simp only [Schema.ref] at h1
    subst h1
    simp [mockSchemaO3, Schema.ref, h2]

/-- The spec's concrete cyclic document: schema `A` whose property `self`
refers back to `A`. -/
def o3CycDefs : List (String × Schema) :=
  [("A", Schema.mk none (some "object") none none none
      (some (.cons "self" (Schema.ofRef "#/components/schemas/A") .nil)))]

/-- C1 witness: meeting `#/components/schemas/A` again while it is on the
visited path returns the sentinel. -/
theorem c1_openapi3_cycle_sentinel_witness :
    mockSchemaO3 o3CycDefs 0 (Schema.ofRef "#/components/schemas/A")
      (insert "#/components/schemas/A" ∅) = JVal.str "<circular-ref>" :=
  c1_openapi3_cycle_sentinel o3CycDefs 0 _ _ "#/components/schemas/A" rfl
    (Finset.mem_insert_self _ _)

/-- C9 witness: a concrete two-endpoint queue with four threads ends with
the queue untouched and no results, whatever the worker body would do. -/
theorem c9_wsdl_worker_type_error_witness :
    wsdlRunThreads 4 (fun st => (st.1.drop 1, st.2 ++ [0]))
      (["op1", "op2"], ([] : List Nat)) = (["op1", "op2"], []) :=
  c9_wsdl_worker_type_error.2 String Nat 4 _ ["op1", "op2"]

/-- C10 witness: a concrete SOAP endpoint cannot be built. -/
theorem c10_wsdl_prepare_attribute_error_witness :
    wsdlPrepareRequest ⟨"http://svc/soap", some "urn:Service#Op"⟩ =
      .error "AttributeError" :=
  c10_wsdl_prepare_attribute_error ⟨"http://svc/soap", some "urn:Service#Op"⟩
